import Mathlib

/-!
Verification of the `otelpy` tracing decorator layer (`src/otelpy/traces.py`)
against its natural-language specification.

The development is a shallow embedding of the Python module:

* Python scalar values are modelled by `PyValue`; `pyStr` models Python's
  `str(...)` rendering.
* Python `dict` objects (insertion-ordered, last assignment to a key wins,
  updates keep the original position of a key) are modelled as association
  lists `Attrs` with the operations `dictInsert` / `dictGet`.
* A Python function object is modelled by its metadata `FuncMeta`
  (`__module__`, `__name__`, `__qualname__`, `asyncio.iscoroutinefunction`)
  together with a call behaviour `List PyValue → Attrs → Except PyValue PyValue`
  (`Except.error e` models the call raising exception `e`).
* The interactions with the OpenTelemetry SDK performed by the emitters are
  recorded as an explicit list of `TraceEvent`s, so that "a span was opened",
  "an event was appended", "the exception was recorded" and "the span was
  closed" are observable in the model.
-/

set_option autoImplicit false

namespace Otelpy

/-- A Python runtime value, as far as the attribute logic observes it:
strings, booleans, integers, `None`, and any other object
(`obj tag repr` carries the object's `str(...)` rendering in `repr`). -/
inductive PyValue where
  | str (s : String)
  | bool (b : Bool)
  | int (n : Int)
  | none
  | obj (tag : String) (repr : String)
deriving DecidableEq, Repr

/-- Python's `str(value)` on a `PyValue`. -/
def pyStr : PyValue → String
  | PyValue.str s => s
  | PyValue.bool true => "True"
  | PyValue.bool false => "False"
  | PyValue.int n => toString n
  | PyValue.none => "None"
  | PyValue.obj _ r => r

/-- A Python `dict` with string keys, as an insertion-ordered association
list.  Every construction in the source goes through `dictInsert`, which
preserves the `dict` invariant that keys are unique. -/
abbrev Attrs := List (String × PyValue)

/-- Python `d[k] = v`: if the key is present, update the value in place
(keeping the key's original position); otherwise append the new pair. -/
def dictInsert (d : Attrs) (k : String) (v : PyValue) : Attrs :=
  if d.any (fun p => p.1 = k) then
    d.map (fun p => if p.1 = k then (k, v) else p)
  else
    d ++ [(k, v)]

/-- Python `d.get(k)`: the value of the first pair whose key is `k`. -/
def dictGet (d : Attrs) (k : String) : Option PyValue :=
  (d.find? (fun p => p.1 = k)).map (fun p => p.2)

/-- The value associated with the LAST occurrence of key `k` in an arbitrary
association list; on a genuine `dict` (unique keys) this is the usual lookup,
and it is the right notion for a sequence of `d[k] = v` assignments. -/
def lookupLast (l : Attrs) (k : String) : Option PyValue :=
  (l.reverse.find? (fun p => p.1 = k)).map (fun p => p.2)

/-- Metadata of a Python function object: `__module__`, `__name__`,
`__qualname__`, and whether `asyncio.iscoroutinefunction` holds of it. -/
structure FuncMeta where
  module : String
  name : String
  qualname : String
  isCoroutine : Bool
deriving DecidableEq, Repr

/-- Python `s.split('.')` on the list of characters of a string: split at
every occurrence of `'.'`, keeping empty segments (`"a..b"` gives
`["a", "", "b"]`, `""` gives `[""]`). -/
def splitDot : List Char → List (List Char)
  | [] => [[]]
  | c :: cs =>
    if c = '.' then [] :: splitDot cs
    else
      match splitDot cs with
      | [] => [[c]]
      | s :: rest => (c :: s) :: rest

/-- Python `'.' in s`. -/
def containsDot (s : String) : Bool :=
  s.data.any (fun c => c = '.')

/-- Python `s.split('.')[0]` (a `split` result is never empty, so the default
of `headD` is unreachable). -/
def firstDotSegment (s : String) : String :=
  String.mk ((splitDot s.data).headD [])

/-- `TracingOptions.TracingAttributes.function_qualified_name` from the
source: the first `'.'`-separated segment of `func.__qualname__` when the
qualified name contains a dot, else the literal `'span.no_name'`. -/
def function_qualified_name (func : FuncMeta) : String :=
  if containsDot func.qualname then firstDotSegment func.qualname
  else "span.no_name"

/-- The condition `lambda value: type(value) in {bool, str, bytes, int, float}`
in the source is used directly as the test of an `if`; a `lambda` object is
always truthy in Python, so the test holds for every value. -/
def coercion_guard (_value : PyValue) : Bool :=
  true

/-- `TracingOptions.TracingAttributes.function_attributes` from the source:
start from `{'module': func.__module__, 'method': func.__name__}`; when
`span_parameters` is set, assign each keyword argument after the (vacuous)
guard has coerced its value with `str(...)`; finally assign each
user-supplied attribute. -/
def function_attributes (func : FuncMeta) (user_attributes : Option Attrs)
    (span_parameters : Bool) (kwargs : Attrs) : Attrs :=
  let attributes : Attrs :=
    [("module", PyValue.str func.module), ("method", PyValue.str func.name)]
  let attributes :=
    if span_parameters then
      kwargs.foldl
        (fun d p =>
          let value := p.2
          let value := if coercion_guard value then PyValue.str (pyStr value) else value
          dictInsert d p.1 value)
        attributes
    else attributes
  match user_attributes with
  | Option.none => attributes
  | Option.some ua => ua.foldl (fun d p => dictInsert d p.1 p.2) attributes

/-- `TracingOptions.naming_scheme` is a class attribute whose default (and,
in the repository, only) binding is
`TracingAttributes.function_qualified_name`. -/
def naming_scheme (func : FuncMeta) : String :=
  function_qualified_name func

/-- The expression `span_name or TracingOptions.naming_scheme(func)` from the
wrapper bodies: Python `or` yields the left operand unless it is falsy, and
the only falsy string is the empty one. -/
def derive_name (span_name : String) (func : FuncMeta) : String :=
  if span_name = "" then naming_scheme func else span_name

/-- ASCII lowering of one character, as Python `str.lower` acts on the
characters appearing in this code path. -/
def lowerChar (c : Char) : Char :=
  if 'A' ≤ c ∧ c ≤ 'Z' then Char.ofNat (c.toNat + 32) else c

/-- Python `s.lower()`. -/
def pyLower (s : String) : String :=
  String.mk (s.data.map lowerChar)

/-- Python `a or b` where `a` is `os.getenv(...)` (so `None` or a string) and
`b` is a string: the left operand unless it is `None` or empty. -/
def pyOrStr (a : Option String) (b : String) : String :=
  match a with
  | Option.none => b
  | Option.some s => if s = "" then b else s

/-- `should_instrumentation` from the source:
`(os.getenv('OTLP_INSTRUMENTATION_DISABLE') or 'false').lower() == 'false'
or context_api.get_value('override_enable_content_tracing')`.
The environment is passed in as `env` (the value of
`OTLP_INSTRUMENTATION_DISABLE`, `Option.none` when unset) and `override` is
the truthiness of the ambient context value under the key
`override_enable_content_tracing`. -/
def should_instrumentation (env : Option String) (override : Bool) : Bool :=
  decide (pyLower (pyOrStr env "false") = "false") || override

/-- The span kinds the source exposes (`TraceInstruments.SPAN_KIND_*`),
passed through verbatim to the SDK. -/
inductive SpanKind where
  | internal
  | client
  | server
  | producer
  | consumer
deriving DecidableEq, Repr

namespace TraceInstruments

/-- `TraceInstruments.INSTRUMENTS_EVENT`. -/
def INSTRUMENTS_EVENT : String := "event"

/-- `TraceInstruments.INSTRUMENTS_TRACE`. -/
def INSTRUMENTS_TRACE : String := "trace"

end TraceInstruments

/-- One observable interaction of this layer with the OpenTelemetry SDK. -/
inductive TraceEvent where
  /-- `tracer.start_as_current_span(name, record_exception=…, kind=…)`
  entered. -/
  | spanStarted (name : String) (kind : SpanKind) (record_exception : Bool)
  /-- `span.set_attribute(key, value)`. -/
  | attributeSet (key : String) (value : PyValue)
  /-- `current_span.add_event(name, attributes=…)`. -/
  | eventAdded (name : String) (attributes : Attrs)
  /-- The SDK recorded the exception raised inside the span scope. -/
  | exceptionRecorded
  /-- The span scope was exited (the span was closed). -/
  | spanEnded
deriving DecidableEq, Repr

/-- A Python callable: its function metadata plus its call behaviour on
positional and keyword arguments. `Except.error e` models the call raising
the exception value `e`; `Except.ok v` models it returning `v`. -/
structure PyCallable where
  meta : FuncMeta
  impl : List PyValue → Attrs → Except PyValue PyValue

/-- The result of running a call under one of the emitters: the value
returned to the caller (or the exception propagated to it), together with
the SDK interactions performed, in order. -/
abbrev CallResult := Except PyValue PyValue × List TraceEvent

/-- `_set_attributes(span, attributes_dict)` from the source: when the dict
is truthy (non-empty), one `set_attribute` call per entry, in order. -/
def set_attributes_events (attributes_dict : Attrs) : List TraceEvent :=
  if attributes_dict = [] then []
  else attributes_dict.map (fun p => TraceEvent.attributeSet p.1 p.2)

/-- `span_event` from the source: look up the current span; if there is one,
append a named event carrying the derived attributes; then invoke the
wrapped function and return its result (the event, having been appended
before the invocation, stays appended even when the function raises). -/
def span_event (func : PyCallable) (name : String) (span_attributes : Attrs)
    (current_span : Option Unit) (args : List PyValue) (kwargs : Attrs) :
    CallResult :=
  let events :=
    match current_span with
    | Option.some _ => [TraceEvent.eventAdded name span_attributes]
    | Option.none => []
  (func.impl args kwargs, events)

/-- `span` from the source: open a span as the current span (with the
configured name, kind and exception-recording flag), set every derived
attribute on it, run the wrapped function inside the scope, and close the
span on exit.  Per the SDK's context-manager contract, an exception raised
by the function is recorded on the span exactly when `record_exception` is
set, the span is closed, and the exception propagates unchanged. -/
def span (func : PyCallable) (_tracer : String) (name : String)
    (span_attributes : Attrs) (kind : SpanKind) (record_exception : Bool)
    (args : List PyValue) (kwargs : Attrs) : CallResult :=
  let res := func.impl args kwargs
  let closing : List TraceEvent :=
    match res with
    | Except.ok _ => [TraceEvent.spanEnded]
    | Except.error _ =>
      (if record_exception then [TraceEvent.exceptionRecorded] else []) ++
        [TraceEvent.spanEnded]
  (res,
    TraceEvent.spanStarted name kind record_exception ::
      (set_attributes_events span_attributes ++ closing))

/-- `async_span_event` from the source: the awaited variant of `span_event`;
the suspension is transparent in this model, so the observable behaviour is
that of `span_event`. -/
def async_span_event (func : PyCallable) (name : String)
    (span_attributes : Attrs) (current_span : Option Unit)
    (args : List PyValue) (kwargs : Attrs) : CallResult :=
  let events :=
    match current_span with
    | Option.some _ => [TraceEvent.eventAdded name span_attributes]
    | Option.none => []
  (func.impl args kwargs, events)

/-- `async_span` from the source: the awaited variant of `span`.  Note the
source declares its parameters in a different order
(`func, tracer, record_exception, name, span_attributes, kind`), which is
kept here. -/
def async_span (func : PyCallable) (_tracer : String)
    (record_exception : Bool) (name : String) (span_attributes : Attrs)
    (kind : SpanKind) (args : List PyValue) (kwargs : Attrs) : CallResult :=
  let res := func.impl args kwargs
  let closing : List TraceEvent :=
    match res with
    | Except.ok _ => [TraceEvent.spanEnded]
    | Except.error _ =>
      (if record_exception then [TraceEvent.exceptionRecorded] else []) ++
        [TraceEvent.spanEnded]
  (res,
    TraceEvent.spanStarted name kind record_exception ::
      (set_attributes_events span_attributes ++ closing))

/-- The keyword configuration surface of `instrumented_trace`
(`span_name`, `record_exception`, `attributes`, `type`, `kind`,
`span_parameters`). -/
structure TraceConfig where
  span_name : String
  record_exception : Bool
  attributes : Option Attrs
  type : String
  kind : SpanKind
  span_parameters : Bool
deriving Repr

/-- The configuration produced when no keyword is supplied: the defaults of
`instrumented_trace`'s signature. -/
def defaultConfig : TraceConfig :=
  ⟨"", true, Option.none, TraceInstruments.INSTRUMENTS_TRACE,
    SpanKind.internal, false⟩

/-- What `instrumented_trace` leaves in place of the target callable: either
the original callable unchanged (gate off at wrap time), or a wrapper
closure holding the configuration, the target, the tracer obtained at wrap
time from `trace.get_tracer(func.__module__)`, and the sync/async selection
made at wrap time from `asyncio.iscoroutinefunction(func)`. -/
inductive Wrapped where
  | original (func : PyCallable)
  | wrapped (cfg : TraceConfig) (func : PyCallable) (tracer : String)
      (isAsync : Bool)

/-- Whether the wrap selected the suspension-capable wrapper body. -/
def Wrapped.isAsyncWrapper : Wrapped → Bool
  | Wrapped.original _ => false
  | Wrapped.wrapped _ _ _ isAsync => isAsync

/-- The body of `wrap_with_span_sync`: derive the name and the attributes,
then dispatch on `type == TraceInstruments.INSTRUMENTS_EVENT` to the event
emitter, else to the trace emitter. -/
def wrap_with_span_sync (cfg : TraceConfig) (tracer : String)
    (func : PyCallable) (current_span : Option Unit) (args : List PyValue)
    (kwargs : Attrs) : CallResult :=
  let name := derive_name cfg.span_name func.meta
  let span_attributes :=
    function_attributes func.meta cfg.attributes cfg.span_parameters kwargs
  if cfg.type = TraceInstruments.INSTRUMENTS_EVENT then
    span_event func name span_attributes current_span args kwargs
  else
    span func tracer name span_attributes cfg.kind cfg.record_exception
      args kwargs

/-- The body of `wrap_with_span_async`: as `wrap_with_span_sync`, but
dispatching to the awaited emitters. -/
def wrap_with_span_async (cfg : TraceConfig) (tracer : String)
    (func : PyCallable) (current_span : Option Unit) (args : List PyValue)
    (kwargs : Attrs) : CallResult :=
  let name := derive_name cfg.span_name func.meta
  let span_attributes :=
    function_attributes func.meta cfg.attributes cfg.span_parameters kwargs
  if cfg.type = TraceInstruments.INSTRUMENTS_EVENT then
    async_span_event func name span_attributes current_span args kwargs
  else
    async_span func tracer cfg.record_exception name span_attributes
      cfg.kind args kwargs

/-- `span_decorator` from the source: obtain the tracer for the target's
module, build both wrapper bodies, and select the async one exactly when
`asyncio.iscoroutinefunction(func)` holds — once, at wrap time. -/
def span_decorator (cfg : TraceConfig) (func : PyCallable) : Wrapped :=
  Wrapped.wrapped cfg func func.meta.module func.meta.isCoroutine

/-- The two shapes a use of `instrumented_trace` can produce: applied bare
(`@instrumented_trace`) it returns a callable; applied as a factory
(`@instrumented_trace(...)`) it returns a decorator still waiting for the
target. -/
inductive WrapResult where
  | callable (w : Wrapped)
  | decorator (d : PyCallable → Wrapped)

/-- `instrumented_trace` from the source.  `envAtWrap` / `overrideAtWrap`
are the environment variable and ambient override AS THEY STAND WHEN THE
DECORATOR IS APPLIED, because that is when the source runs
`should_instrumentation()`: when the gate is off it returns `_func` itself
(bare shape) or the identity `lambda func: func` (factory shape); otherwise
it returns `span_decorator` (factory shape) or `span_decorator(_func)`
(bare shape). -/
def instrumented_trace (envAtWrap : Option String) (overrideAtWrap : Bool)
    (cfg : TraceConfig) (funcOpt : Option PyCallable) : WrapResult :=
  if should_instrumentation envAtWrap overrideAtWrap = false then
    match funcOpt with
    | Option.some f => WrapResult.callable (Wrapped.original f)
    | Option.none => WrapResult.decorator (fun func => Wrapped.original func)
  else
    match funcOpt with
    | Option.none => WrapResult.decorator (span_decorator cfg)
    | Option.some f => WrapResult.callable (span_decorator cfg f)

/-- Apply a `WrapResult` to the target callable: the bare shape already is
the wrapped callable; the factory shape is a decorator awaiting it. -/
def factoryApply (r : WrapResult) (func : PyCallable) : Wrapped :=
  match r with
  | WrapResult.callable w => w
  | WrapResult.decorator d => d func

/-- The bare-decorator shape `@instrumented_trace` (with configuration
`cfg`): the callable that replaces `func`. -/
def bareWrap (envAtWrap : Option String) (overrideAtWrap : Bool)
    (cfg : TraceConfig) (func : PyCallable) : Wrapped :=
  factoryApply (instrumented_trace envAtWrap overrideAtWrap cfg
    (Option.some func)) func

/-- Invoke whatever the decorator left in place of the target.
`_envAtCall` and `_overrideAtCall` are the environment variable and ambient
override AS THEY STAND AT THE CALL; neither wrapper body in the source ever
consults `should_instrumentation` (or any other gate), so they are unused —
the call's behaviour is fixed by what was decided at wrap time. -/
def callWrapped (w : Wrapped) (_envAtCall : Option String)
    (_overrideAtCall : Bool) (current_span : Option Unit)
    (args : List PyValue) (kwargs : Attrs) : CallResult :=
  match w with
  | Wrapped.original f => (f.impl args kwargs, [])
  | Wrapped.wrapped cfg f tracer isAsync =>
    if isAsync then wrap_with_span_async cfg tracer f current_span args kwargs
    else wrap_with_span_sync cfg tracer f current_span args kwargs

/-- A concrete sample target: a method `foo` of a class `Outer` in module
`pkg.mod` that returns the integer `7`. -/
def sampleCallable : PyCallable :=
  ⟨⟨"pkg.mod", "foo", "Outer.foo", false⟩,
    fun _ _ => Except.ok (PyValue.int 7)⟩

/-- A concrete sample target whose call raises the exception value
`"err"`. -/
def raisingCallable : PyCallable :=
  ⟨⟨"pkg.mod", "boom", "Outer.boom", false⟩,
    fun _ _ => Except.error (PyValue.str "err")⟩

/-- A configuration whose `type` is the unrecognized string `"EVENT"`
(Python string comparison is case-sensitive, so this is not the event
token). -/
def eventTypoConfig : TraceConfig :=
  ⟨"", true, Option.none, "EVENT", SpanKind.internal, false⟩

end Otelpy

namespace Otelpy

/-! Helper lemmas about the `dict` model. -/

theorem find?_map_overwrite (d : Attrs) (k : String) (v : PyValue) :
    (d.map (fun p => if p.1 = k then (k, v) else p)).find?
        (fun p => p.1 = k) =
      if d.any (fun p => p.1 = k) then Option.some (k, v) else Option.none := by
  induction d with
  | nil => simp
  | cons q t ih =>
    rw [List.map_cons, List.any_cons]
    by_cases hq : q.1 = k
    · rw [if_pos hq, List.find?_cons_of_pos _ (by simp)]
      simp [hq]
    · rw [if_neg hq, List.find?_cons_of_neg _ (by simp [hq]), ih,
        decide_eq_false hq, Bool.false_or]

theorem dictGet_insert_self (d : Attrs) (k : String) (v : PyValue) :
    dictGet (dictInsert d k v) k = Option.some v := by
  unfold dictInsert dictGet
  by_cases h : d.any (fun p => p.1 = k)
  · rw [if_pos h, find?_map_overwrite, if_pos h]
    rfl
  · rw [if_neg h, List.find?_append]
    have hnone : d.find? (fun p => p.1 = k) = Option.none := by
      rw [List.find?_eq_none]
      intro p hp
      by_contra hcontra
      exact h (List.any_eq_true.mpr ⟨p, hp, hcontra⟩)
    simp [hnone, List.find?]

theorem find?_map_ne (d : Attrs) (k k' : String) (v : PyValue)
    (hne : k' ≠ k) :
    (d.map (fun p => if p.1 = k then (k, v) else p)).find?
        (fun p => p.1 = k') =
      d.find? (fun p => p.1 = k') := by
  induction d with
  | nil => simp
  | cons q t ih =>
    rw [List.map_cons]
    by_cases hq : q.1 = k
    · rw [if_pos hq]
      rw [List.find?_cons_of_neg _
        (by simp only [decide_eq_true_eq]; exact fun hh => hne hh.symm)]
      rw [List.find?_cons_of_neg _
        (by simp only [decide_eq_true_eq]; rw [hq]
            exact fun hh => hne hh.symm)]
      exact ih
    · rw [if_neg hq]
      by_cases hq' : q.1 = k'
      · rw [List.find?_cons_of_pos _ (by simp [hq']),
          List.find?_cons_of_pos _ (by simp [hq'])]
      · rw [List.find?_cons_of_neg _ (by simp [hq']),
          List.find?_cons_of_neg _ (by simp [hq'])]
        exact ih

theorem dictGet_insert_ne (d : Attrs) (k k' : String) (v : PyValue)
    (hne : k' ≠ k) :
    dictGet (dictInsert d k v) k' = dictGet d k' := by
  unfold dictInsert dictGet
  by_cases h : d.any (fun p => p.1 = k)
  · rw [if_pos h, find?_map_ne d k k' v hne]
  · rw [if_neg h, List.find?_append]
    have hone : ([(k, v)].find? (fun p => p.1 = k')) = Option.none := by
      have hkk : ¬ ((k, v).1 = k') := fun hh => hne hh.symm
      simp [List.find?, hkk]
    rw [hone, Option.or_none]

theorem lookupLast_nil (k : String) : lookupLast [] k = Option.none := rfl

theorem lookupLast_cons (p : String × PyValue) (t : Attrs) (k : String) :
    lookupLast (p :: t) k =
      (lookupLast t k).or
        (if p.1 = k then Option.some p.2 else Option.none) := by
  unfold lookupLast
  rw [List.reverse_cons, List.find?_append]
  cases h : t.reverse.find? (fun q => q.1 = k) with
  | none => by_cases hp : p.1 = k <;> simp [h, List.find?, hp]
  | some q => simp [h]

theorem dictGet_foldl_insert (g : PyValue → PyValue) (l : Attrs) (d : Attrs)
    (k : String) :
    dictGet (l.foldl (fun acc p => dictInsert acc p.1 (g p.2)) d) k =
      ((lookupLast l k).map g).or (dictGet d k) := by
  induction l generalizing d with
  | nil => simp [lookupLast_nil]
  | cons p t ih =>
    rw [List.foldl_cons, ih, lookupLast_cons]
    cases h : lookupLast t k with
    | some v' => simp [h]
    | none =>
      by_cases hp : p.1 = k
      · rw [hp] at *
        simp [h, dictGet_insert_self]
      · have hne : k ≠ p.1 := fun hh => hp hh.symm
        rw [dictGet_insert_ne d p.1 k (g p.2) hne]
        simp [h, hp]

theorem dictGet_foldl_insert_id (l : Attrs) (d : Attrs) (k : String) :
    dictGet (l.foldl (fun acc p => dictInsert acc p.1 p.2) d) k =
      (lookupLast l k).or (dictGet d k) := by
  have h := dictGet_foldl_insert (fun v => v) l d k
  simpa using h

theorem dictGet_foldl_insert_str (l : Attrs) (d : Attrs) (k : String) :
    dictGet
        (l.foldl
          (fun acc p => dictInsert acc p.1 (PyValue.str (pyStr p.2))) d) k =
      ((lookupLast l k).map (fun v => PyValue.str (pyStr v))).or
        (dictGet d k) := by
  have h := dictGet_foldl_insert (fun v => PyValue.str (pyStr v)) l d k
  simpa using h

/-- The fixed metadata dict `{'module': m, 'method': n}`, looked up at an
arbitrary key. -/
theorem dictGet_metadata (m n : String) (k : String) :
    dictGet [("module", PyValue.str m), ("method", PyValue.str n)] k =
      (if k = "module" then Option.some (PyValue.str m)
       else if k = "method" then Option.some (PyValue.str n)
       else Option.none) := by
  unfold dictGet
  by_cases h1 : k = "module"
  · subst h1
    rw [List.find?_cons_of_pos _ (by simp)]
    simp
  · rw [List.find?_cons_of_neg _
      (by simp only [decide_eq_true_eq]; exact fun hh => h1 hh.symm)]
    by_cases h2 : k = "method"
    · subst h2
      rw [List.find?_cons_of_pos _ (by simp)]
      simp [h1]
    · rw [List.find?_cons_of_neg _
        (by simp only [decide_eq_true_eq]; exact fun hh => h2 hh.symm)]
      simp [List.find?, h1, h2]

/-- `function_attributes` with the vacuous coercion guard reduced away:
because the guard holds of every value, every keyword-argument value is
stored as `str(value)`. -/
theorem function_attributes_eq (func : FuncMeta) (user : Option Attrs)
    (sp : Bool) (kwargs : Attrs) :
    function_attributes func user sp kwargs =
      (let base : Attrs :=
        [("module", PyValue.str func.module),
          ("method", PyValue.str func.name)]
      let mid :=
        if sp then
          kwargs.foldl
            (fun d p => dictInsert d p.1 (PyValue.str (pyStr p.2))) base
        else base
      match user with
      | Option.none => mid
      | Option.some ua => ua.foldl (fun d p => dictInsert d p.1 p.2) mid) := by
  unfold function_attributes
  simp [coercion_guard]

/-! The claims. -/

/-- C1: for every function wrapped without an explicit `span_name`, the
derived span/event name is the first `'.'`-separated segment of the
function's qualified name when that name contains a dot, and the fixed
fallback token `'span.no_name'` when it contains no dot; in particular an
ordinary top-level function (whose qualified name is its own name) gets the
fallback token, not its own name. -/
theorem c1_derived_name (func : FuncMeta) :
    (containsDot func.qualname = true →
      derive_name "" func = firstDotSegment func.qualname) ∧
    (containsDot func.qualname = false →
      derive_name "" func = "span.no_name") ∧
    (containsDot func.qualname = false → func.qualname = func.name →
      func.name ≠ "span.no_name" → derive_name "" func ≠ func.name) := by
  refine ⟨?_, ?_, ?_⟩
  · intro h
    simp [derive_name, naming_scheme, function_qualified_name, h]
  · intro h
    simp [derive_name, naming_scheme, function_qualified_name, h]
  · intro h _ hname
    simp [derive_name, naming_scheme, function_qualified_name, h]
    exact fun hc => hname hc.symm

/-- Witness for C1: the method `Outer.foo` is named after its enclosing
class, and a top-level `foo` (qualified name `"foo"`, no dot) is named with
the fallback token instead of `"foo"`. -/
theorem c1_derived_name_witness :
    derive_name "" ⟨"pkg.mod", "foo", "Outer.foo", false⟩ = "Outer" ∧
    derive_name "" ⟨"pkg.mod", "foo", "foo", false⟩ = "span.no_name" ∧
    derive_name "" ⟨"pkg.mod", "foo", "foo", false⟩ ≠ "foo" := by
  refine ⟨?_, ?_, ?_⟩
  · have h := (c1_derived_name ⟨"pkg.mod", "foo", "Outer.foo", false⟩).1
      (by decide)
    rw [h]
    decide
  · exact (c1_derived_name ⟨"pkg.mod", "foo", "foo", false⟩).2.1 (by decide)
  · exact (c1_derived_name ⟨"pkg.mod", "foo", "foo", false⟩).2.2 (by decide)
      rfl (by decide)

/-- C2: the derived attribute set is built metadata first (`module`, then
`method`), then — when `span_parameters` is set — the call's keyword
arguments coerced to string, then the user-supplied attributes, a later
source overwriting an earlier entry with the same key: looking up any key
finds the user-supplied value first, else the stringified keyword argument
(only when `span_parameters` is set), else the metadata value. -/
theorem c2_attribute_precedence (func : FuncMeta) (user : Option Attrs)
    (sp : Bool) (kwargs : Attrs) (k : String) :
    dictGet (function_attributes func user sp kwargs) k =
      (lookupLast (user.getD []) k).or
        (((if sp then lookupLast kwargs k else Option.none).map
            (fun v => PyValue.str (pyStr v))).or
          (if k = "module" then Option.some (PyValue.str func.module)
           else if k = "method" then Option.some (PyValue.str func.name)
           else Option.none)) := by
  rw [function_attributes_eq]
  cases user with
  | none =>
    cases sp with
    | false => simp [lookupLast_nil, dictGet_metadata]
    | true => simp [lookupLast_nil, dictGet_foldl_insert_str, dictGet_metadata]
  | some ua =>
    cases sp with
    | false =>
      simp [dictGet_foldl_insert_id, lookupLast_nil, dictGet_metadata]
    | true =>
      simp [dictGet_foldl_insert_id, dictGet_foldl_insert_str,
        dictGet_metadata]

/-- C3: when `span_parameters` is set, string coercion of keyword-argument
values is unconditional — whatever the value's type (including values
outside the guard's scalar set, such as arbitrary objects), the stored
attribute is the value's string form. -/
theorem c3_unconditional_coercion (func : FuncMeta) (user : Option Attrs)
    (kwargs : Attrs) (k : String) (v : PyValue)
    (hk : lookupLast kwargs k = Option.some v)
    (huser : lookupLast (user.getD []) k = Option.none) :
    dictGet (function_attributes func user true kwargs) k =
      Option.some (PyValue.str (pyStr v)) := by
  rw [function_attributes_eq]
  cases user with
  | none => simp [dictGet_foldl_insert_str, hk]
  | some ua =>
    have huser' : lookupLast ua k = Option.none := by simpa using huser
    simp [dictGet_foldl_insert_id, dictGet_foldl_insert_str, hk, huser']

/-- Witness for C3: a keyword argument whose value is a list object (a type
outside the guard's scalar set) is still coerced to its string form. -/
theorem c3_unconditional_coercion_witness :
    dictGet
      (function_attributes ⟨"pkg.mod", "foo", "Outer.foo", false⟩
        Option.none true [("payload", PyValue.obj "list" "[1, 2]")])
      "payload" =
      Option.some (PyValue.str "[1, 2]") :=
  c3_unconditional_coercion ⟨"pkg.mod", "foo", "Outer.foo", false⟩
    Option.none [("payload", PyValue.obj "list" "[1, 2]")] "payload"
    (PyValue.obj "list" "[1, 2]") (by decide) (by decide)

/-- C4: the gate reports tracing disabled only when the environment
variable is set to a value that, lowered, differs from the literal
`'false'` and the ambient override is falsy; an unset variable means
enabled, and a truthy ambient override forces enabled regardless of the
environment value. -/
theorem c4_gate (env : Option String) (override : Bool) :
    (should_instrumentation env override = false →
      ∃ v, env = Option.some v ∧ pyLower v ≠ "false" ∧ override = false) ∧
    (env = Option.none → should_instrumentation env override = true) ∧
    (override = true → should_instrumentation env override = true) := by
  have hf : pyLower "false" = "false" := by decide
  refine ⟨?_, ?_, ?_⟩
  · intro h
    cases env with
    | none =>
      exfalso
      simp [should_instrumentation, pyOrStr, hf] at h
    | some v =>
      by_cases hv : v = ""
      · exfalso
        simp [should_instrumentation, pyOrStr, hv, hf] at h
      · refine ⟨v, rfl, ?_, ?_⟩
        · intro hvlow
          simp [should_instrumentation, pyOrStr, hv, hvlow] at h
        · simpa using (Bool.or_eq_false_iff.mp h).2
  · intro h
    subst h
    simp [should_instrumentation, pyOrStr, hf]
  · intro h
    simp [should_instrumentation, h]

/-- Witness for C4: with the variable set to `"true"` and no override the
gate is off, so the disabled-only-when conditions are realized there; an
unset variable yields enabled; an override of `true` yields enabled even
with the variable set to `"TRUE"`. -/
theorem c4_gate_witness :
    (∃ v, (Option.some "true" : Option String) = Option.some v ∧
      pyLower v ≠ "false" ∧ false = false) ∧
    should_instrumentation Option.none false = true ∧
    should_instrumentation (Option.some "TRUE") true = true :=
  ⟨(c4_gate (Option.some "true") false).1 (by decide),
    (c4_gate Option.none false).2.1 rfl,
    (c4_gate (Option.some "TRUE") true).2.2 rfl⟩

/-- C5 (amended): the gate is consulted once, at wrap time — what
`instrumented_trace` leaves in place of the target is fixed by the
environment flag and ambient override at decoration, and a later call's
behaviour is invariant under the environment flag and ambient override
standing at that call. -/
theorem c5_wrap_time_gate (envW : Option String) (ovW : Bool)
    (cfg : TraceConfig) (func : PyCallable) (envC envC' : Option String)
    (ovC ovC' : Bool) (cs : Option Unit) (args : List PyValue)
    (kwargs : Attrs) :
    bareWrap envW ovW cfg func =
      (if should_instrumentation envW ovW = true then span_decorator cfg func
       else Wrapped.original func) ∧
    callWrapped (bareWrap envW ovW cfg func) envC ovC cs args kwargs =
      callWrapped (bareWrap envW ovW cfg func) envC' ovC' cs args kwargs := by
  constructor
  · unfold bareWrap instrumented_trace factoryApply
    cases h : should_instrumentation envW ovW <;> simp [h]
  · cases hw : bareWrap envW ovW cfg func <;> rfl

/-- Counterexample to C5 as stated: wrap while the gate is off (variable
`"true"`, no override), then call while the gate is on (override truthy at
the call): the call produces no SDK interaction at all, although the same
wrap performed under the call-time state does trace — the invocation's
tracing decision reflects the wrap-time state, not the call-time state. -/
theorem c5_counterexample :
    should_instrumentation (Option.some "true") false = false ∧
    should_instrumentation (Option.some "true") true = true ∧
    (callWrapped
        (bareWrap (Option.some "true") false defaultConfig sampleCallable)
        (Option.some "true") true Option.none [] []).2 = [] ∧
    (callWrapped
        (bareWrap (Option.some "true") true defaultConfig sampleCallable)
        (Option.some "true") true Option.none [] []).2 ≠ [] := by
  refine ⟨by decide, by decide, rfl, by decide⟩

/-- C6: when the gate is off at wrap time, both call shapes return the
original callable unchanged — `@instrumented_trace` returns `_func` itself
and `@instrumented_trace(...)` returns the identity decorator — and a call
through the returned callable runs the function with no span or event side
effect. -/
theorem c6_gate_off_identity (cfg : TraceConfig) (envW : Option String)
    (ovW : Bool) (func : PyCallable) (envC : Option String) (ovC : Bool)
    (cs : Option Unit) (args : List PyValue) (kwargs : Attrs)
    (hgate : should_instrumentation envW ovW = false) :
    instrumented_trace envW ovW cfg (Option.some func) =
      WrapResult.callable (Wrapped.original func) ∧
    factoryApply (instrumented_trace envW ovW cfg Option.none) func =
      Wrapped.original func ∧
    callWrapped (Wrapped.original func) envC ovC cs args kwargs =
      (func.impl args kwargs, []) := by
  refine ⟨?_, ?_, rfl⟩
  · simp [instrumented_trace, hgate]
  · simp [instrumented_trace, factoryApply, hgate]

/-- Witness for C6: with the variable set to `"true"` and no override at
wrap time, both shapes leave `sampleCallable` in place and a call returns
its result with no SDK interaction. -/
theorem c6_gate_off_identity_witness :
    instrumented_trace (Option.some "true") false defaultConfig
        (Option.some sampleCallable) =
      WrapResult.callable (Wrapped.original sampleCallable) ∧
    factoryApply
        (instrumented_trace (Option.some "true") false defaultConfig
          Option.none) sampleCallable =
      Wrapped.original sampleCallable ∧
    callWrapped (Wrapped.original sampleCallable) Option.none true
        Option.none [] [] =
      (sampleCallable.impl [] [], []) :=
  c6_gate_off_identity defaultConfig (Option.some "true") false
    sampleCallable Option.none true Option.none [] [] (by decide)

/-- C7: through both event-type emitters, a call with no currently active
span raises no error and appends no event — the wrapped function is still
invoked and its result (or raised exception) is returned unchanged; with an
active span, a named event carrying the derived attributes is appended (it
is appended before the function runs, so it is present even when the
function raises). -/
theorem c7_event_emitters (func : PyCallable) (name : String)
    (span_attributes : Attrs) (args : List PyValue) (kwargs : Attrs) :
    (span_event func name span_attributes Option.none args kwargs =
        (func.impl args kwargs, []) ∧
      async_span_event func name span_attributes Option.none args kwargs =
        (func.impl args kwargs, [])) ∧
    (∀ s : Unit,
      span_event func name span_attributes (Option.some s) args kwargs =
          (func.impl args kwargs,
            [TraceEvent.eventAdded name span_attributes]) ∧
        async_span_event func name span_attributes (Option.some s) args
            kwargs =
          (func.impl args kwargs,
            [TraceEvent.eventAdded name span_attributes])) :=
  ⟨⟨rfl, rfl⟩, fun _ => ⟨rfl, rfl⟩⟩

/-- C8: through both trace-type emitters, the wrapped function's outcome —
return value or raised exception — is handed to the caller unchanged; the
span is closed (the last SDK interaction is the span exit) on every path;
and when the function raises and `record_exception` is set, the exception
is recorded on the span. -/
theorem c8_trace_exception (func : PyCallable) (tracer name : String)
    (span_attributes : Attrs) (kind : SpanKind) (record_exception : Bool)
    (args : List PyValue) (kwargs : Attrs) :
    ((span func tracer name span_attributes kind record_exception args
          kwargs).1 =
        func.impl args kwargs ∧
      (async_span func tracer record_exception name span_attributes kind
          args kwargs).1 =
        func.impl args kwargs) ∧
    ((span func tracer name span_attributes kind record_exception args
          kwargs).2.getLast? =
        Option.some TraceEvent.spanEnded ∧
      (async_span func tracer record_exception name span_attributes kind
          args kwargs).2.getLast? =
        Option.some TraceEvent.spanEnded) ∧
    (∀ e : PyValue, func.impl args kwargs = Except.error e →
      record_exception = true →
        TraceEvent.exceptionRecorded ∈
            (span func tracer name span_attributes kind record_exception
              args kwargs).2 ∧
          TraceEvent.exceptionRecorded ∈
            (async_span func tracer record_exception name span_attributes
              kind args kwargs).2) := by
  have hlast : ∀ (a : TraceEvent) (l : List TraceEvent),
      (a :: (l ++ [TraceEvent.spanEnded])).getLast? =
        Option.some TraceEvent.spanEnded := by
    intro a l
    rw [← List.cons_append, List.getLast?_concat]
  refine ⟨⟨rfl, rfl⟩, ⟨?_, ?_⟩, ?_⟩
  · unfold span
    cases h : func.impl args kwargs with
    | ok v => simp only [h, hlast]
    | error e =>
      cases record_exception <;>
        simp only [h, if_true, if_false, List.nil_append,
          ← List.append_assoc, hlast]
  · unfold async_span
    cases h : func.impl args kwargs with
    | ok v => simp only [h, hlast]
    | error e =>
      cases record_exception <;>
        simp only [h, if_true, if_false, List.nil_append,
          ← List.append_assoc, hlast]
  · intro e he hrec
    subst hrec
    constructor
    · unfold span
      simp [he]
    · unfold async_span
      simp [he]

/-- Witness for C8: a trace-type call of a raising function records the
exception on the span in both the sync and the async emitter. -/
theorem c8_trace_exception_witness :
    TraceEvent.exceptionRecorded ∈
      (span raisingCallable "pkg.mod" "Outer" [] SpanKind.internal true
        [] []).2 ∧
    TraceEvent.exceptionRecorded ∈
      (async_span raisingCallable "pkg.mod" true "Outer" []
        SpanKind.internal [] []).2 :=
  (c8_trace_exception raisingCallable "pkg.mod" "Outer" [] SpanKind.internal
    true [] []).2.2 (PyValue.str "err") rfl rfl

/-- C9: the decorator selects the suspension-capable wrapper exactly when
`asyncio.iscoroutinefunction` holds of the target, the selection being
fixed in the closure at wrap time; and through either wrapper, whatever the
configuration, the value returned to the caller equals the un-instrumented
function's result on the same arguments. -/
theorem c9_dispatch (cfg : TraceConfig) (func : PyCallable)
    (envC : Option String) (ovC : Bool) (cs : Option Unit)
    (args : List PyValue) (kwargs : Attrs) :
    (span_decorator cfg func).isAsyncWrapper = func.meta.isCoroutine ∧
    (callWrapped (span_decorator cfg func) envC ovC cs args kwargs).1 =
      func.impl args kwargs := by
  constructor
  · rfl
  · unfold span_decorator callWrapped
    cases func.meta.isCoroutine
    · by_cases ht : cfg.type = TraceInstruments.INSTRUMENTS_EVENT
      · cases cs <;> simp [wrap_with_span_sync, ht, span_event]
      · simp [wrap_with_span_sync, ht, span]
    · by_cases ht : cfg.type = TraceInstruments.INSTRUMENTS_EVENT
      · cases cs <;> simp [wrap_with_span_async, ht, async_span_event]
      · simp [wrap_with_span_async, ht, async_span]

/-- C10: for every configured `type` other than the exact string
`'event'` — unrecognized or misspelled values included, nothing validates
them — the wrapper dispatches to the trace emitter: the first SDK
interaction of the call is opening a new span with the derived name and the
configured kind and exception-recording flag. -/
theorem c10_non_event_type (cfg : TraceConfig) (func : PyCallable)
    (envC : Option String) (ovC : Bool) (cs : Option Unit)
    (args : List PyValue) (kwargs : Attrs)
    (h : cfg.type ≠ TraceInstruments.INSTRUMENTS_EVENT) :
    (callWrapped (span_decorator cfg func) envC ovC cs args kwargs).2.head? =
      Option.some (TraceEvent.spanStarted
        (derive_name cfg.span_name func.meta) cfg.kind
        cfg.record_exception) := by
  unfold span_decorator callWrapped
  cases func.meta.isCoroutine
  · simp [wrap_with_span_sync, h, span]
  · simp [wrap_with_span_async, h, async_span]

/-- Witness for C10: the misspelled type `"EVENT"` (Python comparison is
case-sensitive) silently behaves as a trace: the call opens a span named
after the enclosing qualifier segment. -/
theorem c10_non_event_type_witness :
    (callWrapped (span_decorator eventTypoConfig sampleCallable)
        Option.none false Option.none [] []).2.head? =
      Option.some (TraceEvent.spanStarted "Outer" SpanKind.internal
        true) := by
  have h := c10_non_event_type eventTypoConfig sampleCallable Option.none
    false Option.none [] [] (by decide)
  rw [h]
  decide

end Otelpy
